import Mathlib

/-!
Shallow embedding of `src/appfigures.py`: the Appfigures upstream client
(`make_request_bearer`) and the aggregator (`fetch_appfigures_data`).

Modelling choices (each mirrors the Python source):
* `JValue` models the values produced by `response.json()`; JSON objects are
  association lists keeping insertion order (Python dicts keep insertion order,
  and their keys are unique).
* The network is an oracle `net : Request → Except String HttpResponse`;
  `Except.error e` models `requests.get` raising a transport exception.
* `HttpResponse` carries the status code, the raw body text (`response.text`)
  and `jsonBody`, the outcome of `response.json()` (`none` models the parse
  raising).
* Both functions are instrumented with a request log (second component of the
  result): the list of requests handed to `requests.get`, in order.  This is
  the only addition to the source; the first component is the Python return
  value / raised exception message.
-/

/-- JSON values as returned by `response.json()`; objects keep insertion order. -/
inductive JValue where
  | obj : List (String × JValue) → JValue
  | arr : List JValue → JValue
  | str : String → JValue
  | num : Int → JValue
  | bool : Bool → JValue
  | null : JValue
deriving Repr

/-- First-match association-list lookup, the semantics of Python `dict` access
on a dict whose pairs are listed in insertion order (keys are unique in an
actual dict, so "first match" is just "the match"). -/
def alookup {α : Type} (k : String) : List (String × α) → Option α
  | [] => none
  | (a, b) :: rest => if k = a then some b else alookup k rest

mutual
/-- Python `repr` of a `json.loads` result (floats are out of scope; string
escaping inside `repr` is not modelled, which only matters for exotic message
values). -/
def pyRepr : JValue → String
  | JValue.str s => "\x27" ++ s ++ "\x27"
  | JValue.num n => toString n
  | JValue.bool b => if b then "True" else "False"
  | JValue.null => "None"
  | JValue.arr xs => "[" ++ pyReprArr xs ++ "]"
  | JValue.obj ps => "\x7b" ++ pyReprObj ps ++ "\x7d"

/-- Comma-joined `repr`s of the elements of a Python list. -/
def pyReprArr : List JValue → String
  | [] => ""
  | [x] => pyRepr x
  | x :: y :: rest => pyRepr x ++ ", " ++ pyReprArr (y :: rest)

/-- Comma-joined `repr`s of the entries of a Python dict. -/
def pyReprObj : List (String × JValue) → String
  | [] => ""
  | [(k, v)] => "\x27" ++ k ++ "\x27: " ++ pyRepr v
  | (k, v) :: p :: rest => "\x27" ++ k ++ "\x27: " ++ pyRepr v ++ ", " ++ pyReprObj (p :: rest)
end

/-- Python `str()` of a `json.loads` result, as used by an f-string:
a `str` formats as itself, everything else as its `repr`. -/
def pyStr : JValue → String
  | JValue.str s => s
  | v => pyRepr v

/-- An upstream HTTP response: status code, raw body text (`response.text`),
and `jsonBody`, the result of `response.json()` (`none` when parsing raises). -/
structure HttpResponse where
  status : Nat
  text : String
  jsonBody : Option JValue

/-- One outbound request: endpoint path plus query parameters. -/
structure Request where
  endpoint : String
  params : List (String × String)
deriving DecidableEq, Repr

/-- The network oracle: what `requests.get` does for each request.
`Except.error e` models a transport-level exception with message `e`. -/
def Net : Type := Request → Except String HttpResponse

/-- Python truthiness test `not PAT` on `os.environ.get('APPFIGURES_PAT')`:
true when the variable is unset (`None`) or set to the empty string. -/
def notPAT : Option String → Bool
  | none => true
  | some s => s.isEmpty

/-- `requests.Response.ok`: `raise_for_status` raises exactly for
`400 <= status_code < 600`, so `ok` is true outside that range. -/
def responseOk (status : Nat) : Bool :=
  if 400 ≤ status ∧ status < 600 then false else true

/-- `make_request_bearer(endpoint, params)` from `src/appfigures.py`, with the
ambient `PAT` and the network passed explicitly.  Returns the parsed body or
the raised exception's message, together with the list of requests handed to
`requests.get` (empty when the `PAT` check raises first). -/
def make_request_bearer (pat : Option String) (net : Net)
    (endpoint : String) (params : List (String × String)) :
    Except String JValue × List Request :=
  if notPAT pat then
    (Except.error "APPFIGURES_PAT environment variable not set", [])
  else
    match net ⟨endpoint, params⟩ with
    | Except.error e => (Except.error e, [⟨endpoint, params⟩])
    | Except.ok resp =>
      if responseOk resp.status then
        match resp.jsonBody with
        | some data => (Except.ok data, [⟨endpoint, params⟩])
        | none => (Except.error "JSONDecodeError", [⟨endpoint, params⟩])
      else
        match resp.jsonBody with
        | some (JValue.obj details) =>
          (Except.error ("API Error: " ++ toString resp.status ++ " - "
            ++ pyStr ((alookup "message" details).getD (JValue.str ""))),
           [⟨endpoint, params⟩])
        | some _ =>
          (Except.error ("API Error: " ++ toString resp.status ++ " - " ++ resp.text),
           [⟨endpoint, params⟩])
        | none =>
          (Except.error ("API Error: " ++ toString resp.status ++ " - " ++ resp.text),
           [⟨endpoint, params⟩])

/-- `','.join(str(pid) for pid in products.keys())` (line 55); object keys are
already strings, so `str(pid)` is `pid` itself. -/
def product_ids (prodPairs : List (String × JValue)) : String :=
  String.intercalate "," (prodPairs.map fun p => p.1)

/-- `b.get(pid, {}) if isinstance(b, dict) else {}` from the combine loop. -/
def bucketGet (bucket : JValue) (pid : String) : JValue :=
  match bucket with
  | JValue.obj ps => (alookup pid ps).getD (JValue.obj [])
  | _ => JValue.obj []

/-- The combine loop of `fetch_appfigures_data` (lines 80–87): one record per
entry of the products dict, in its order. -/
def combine (prodPairs : List (String × JValue))
    (sales usage ratings : JValue) : List (String × JValue) :=
  prodPairs.map fun p =>
    (p.1, JValue.obj [("product", p.2),
                      ("sales", bucketGet sales p.1),
                      ("usage", bucketGet usage p.1),
                      ("ratings", bucketGet ratings p.1)])

/-- `fetch_appfigures_data()` from `src/appfigures.py`.  First component: the
returned dict (as an ordered association list) or the raised exception's
message (`products.keys()` on a non-dict raises `AttributeError`).  Second
component: the requests handed to `requests.get`, in order. -/
def fetch_appfigures_data (pat : Option String) (net : Net) :
    Except String (List (String × JValue)) × List Request :=
  match make_request_bearer pat net "/products/mine" [("store", "apple")] with
  | (Except.error e, log1) => (Except.error e, log1)
  | (Except.ok products, log1) =>
    match products with
    | JValue.obj prodPairs =>
      if product_ids prodPairs = "" then
        (Except.error "No products found.", log1)
      else
        match make_request_bearer pat net "/reports/sales"
            [("group_by", "product"), ("products", product_ids prodPairs)] with
        | (Except.error e, log2) => (Except.error e, log1 ++ log2)
        | (Except.ok sales, log2) =>
          match make_request_bearer pat net "/reports/usage"
              [("group_by", "product"), ("products", product_ids prodPairs),
               ("usage_type", "app_store_views,impressions"),
               ("storefront", "apple")] with
          | (Except.error e, log3) => (Except.error e, log1 ++ log2 ++ log3)
          | (Except.ok usage, log3) =>
            match make_request_bearer pat net "/ratings"
                [("products", product_ids prodPairs)] with
            | (Except.error e, log4) => (Except.error e, log1 ++ log2 ++ log3 ++ log4)
            | (Except.ok ratings, log4) =>
              (Except.ok (combine prodPairs sales usage ratings),
               log1 ++ log2 ++ log3 ++ log4)
    | _ => (Except.error "AttributeError: \x27keys\x27", log1)

/-- Spec-side transcription of the metric-field clause of the Combined Record:
the field value `v` for product `pid` equals the bucket's entry when the bucket
is a mapping containing `pid`, and equals the empty mapping when `pid` is
absent from the bucket or the bucket is not a mapping. -/
def FieldSpec (bucket : JValue) (pid : String) (v : JValue) : Prop :=
  (∃ ps, bucket = JValue.obj ps ∧ alookup pid ps = some v) ∨
  (v = JValue.obj [] ∧
    ((∃ ps, bucket = JValue.obj ps ∧ alookup pid ps = none) ∨
     ∀ ps, bucket ≠ JValue.obj ps))

/-! Concrete data used by the witnesses: a happy-path upstream (mirroring the
worked example of the spec), an empty products response, a products response
whose only key is the empty string, a 404 with a JSON-object body lacking a
`message` field, a 304, and a dead network. -/

def prodHappy : List (String × JValue) :=
  [("111", JValue.obj [("name", JValue.str "App A")]),
   ("222", JValue.obj [("name", JValue.str "App B")])]

def salesHappy : JValue := JValue.obj [("111", JValue.obj [("revenue", JValue.num 100)])]

def usageHappy : JValue := JValue.obj []

def ratingsHappy : JValue := JValue.obj [("222", JValue.obj [("avg", JValue.num 4)])]

def netHappy : Net := fun req =>
  if req.endpoint = "/products/mine" then Except.ok ⟨200, "", some (JValue.obj prodHappy)⟩
  else if req.endpoint = "/reports/sales" then Except.ok ⟨200, "", some salesHappy⟩
  else if req.endpoint = "/reports/usage" then Except.ok ⟨200, "", some usageHappy⟩
  else Except.ok ⟨200, "", some ratingsHappy⟩

/-- The aggregate netHappy leads to, written out. -/
def mHappy : List (String × JValue) :=
  [("111", JValue.obj [("product", JValue.obj [("name", JValue.str "App A")]),
                       ("sales", JValue.obj [("revenue", JValue.num 100)]),
                       ("usage", JValue.obj []),
                       ("ratings", JValue.obj [])]),
   ("222", JValue.obj [("product", JValue.obj [("name", JValue.str "App B")]),
                       ("sales", JValue.obj []),
                       ("usage", JValue.obj []),
                       ("ratings", JValue.obj [("avg", JValue.num 4)])])]

def netEmptyProducts : Net := fun _ => Except.ok ⟨200, "", some (JValue.obj [])⟩

def netEmptyKey : Net := fun _ => Except.ok ⟨200, "", some (JValue.obj [("", JValue.null)])⟩

/-- A 404 whose body parses to a JSON object with no `message` field. -/
def resp404 : HttpResponse :=
  ⟨404, "\x7b\"foo\": 1\x7d", some (JValue.obj [("foo", JValue.num 1)])⟩

def net404 : Net := fun _ => Except.ok resp404

/-- A 304 Not Modified whose body parses. -/
def resp304 : HttpResponse := ⟨304, "", some (JValue.obj [("a", JValue.num 2)])⟩

def net304 : Net := fun _ => Except.ok resp304

def netDead : Net := fun _ => Except.error "connection refused"

/-! Helper lemmas. -/

theorem bucketGet_fieldSpec (bucket : JValue) (pid : String) :
    FieldSpec bucket pid (bucketGet bucket pid) := by
  cases bucket with
  | obj ps =>
    cases hl : alookup pid ps with
    | some v => exact Or.inl ⟨ps, rfl, by simp [bucketGet, hl]⟩
    | none => exact Or.inr ⟨by simp [bucketGet, hl], Or.inl ⟨ps, rfl, hl⟩⟩
  | arr xs => exact Or.inr ⟨rfl, Or.inr (by intro ps h; exact JValue.noConfusion h)⟩
  | str s => exact Or.inr ⟨rfl, Or.inr (by intro ps h; exact JValue.noConfusion h)⟩
  | num n => exact Or.inr ⟨rfl, Or.inr (by intro ps h; exact JValue.noConfusion h)⟩
  | bool b => exact Or.inr ⟨rfl, Or.inr (by intro ps h; exact JValue.noConfusion h)⟩
  | null => exact Or.inr ⟨rfl, Or.inr (by intro ps h; exact JValue.noConfusion h)⟩

theorem mrb_missing_pat (pat : Option String) (net : Net) (e : String)
    (p : List (String × String)) (h : notPAT pat = true) :
    make_request_bearer pat net e p =
      (Except.error "APPFIGURES_PAT environment variable not set", []) := by
  unfold make_request_bearer
  simp [h]

theorem mrb_ok_notPAT (pat : Option String) (net : Net) (e : String)
    (p : List (String × String)) (v : JValue)
    (h : (make_request_bearer pat net e p).1 = Except.ok v) : notPAT pat = false := by
  cases hpat : notPAT pat with
  | false => rfl
  | true =>
    rw [mrb_missing_pat pat net e p hpat] at h
    exact Except.noConfusion h

theorem mrb_log (pat : Option String) (net : Net) (e : String)
    (p : List (String × String)) (hpat : notPAT pat = false) :
    (make_request_bearer pat net e p).2 = [⟨e, p⟩] := by
  unfold make_request_bearer
  simp only [hpat, Bool.false_eq_true, if_false]
  split
  · rfl
  · split
    · split <;> rfl
    · split <;> rfl

theorem mrb_ok_pair (pat : Option String) (net : Net) (e : String)
    (p : List (String × String)) (v : JValue)
    (h : (make_request_bearer pat net e p).1 = Except.ok v) :
    make_request_bearer pat net e p = (Except.ok v, [⟨e, p⟩]) := by
  have h2 := mrb_log pat net e p (mrb_ok_notPAT pat net e p v h)
  have he : make_request_bearer pat net e p
      = ((make_request_bearer pat net e p).1, (make_request_bearer pat net e p).2) := rfl
  rw [he, h, h2]

theorem combine_keys (prodPairs : List (String × JValue)) (sales usage ratings : JValue) :
    (combine prodPairs sales usage ratings).map Prod.fst = prodPairs.map Prod.fst := by
  induction prodPairs with
  | nil => rfl
  | cons p rest ih => simp [combine] at ih ⊢

theorem alookup_combine (prodPairs : List (String × JValue)) (sales usage ratings : JValue)
    (pid : String) :
    alookup pid (combine prodPairs sales usage ratings) =
      (alookup pid prodPairs).map fun pval =>
        JValue.obj [("product", pval),
                    ("sales", bucketGet sales pid),
                    ("usage", bucketGet usage pid),
                    ("ratings", bucketGet ratings pid)] := by
  induction prodPairs with
  | nil => rfl
  | cons p rest ih =>
    obtain ⟨k, v⟩ := p
    by_cases hk : pid = k
    · subst hk
      simp [combine, alookup]
    · simp only [combine, List.map_cons, alookup, if_neg hk]
      simpa [combine] using ih

theorem fetch_ok_shape (pat : Option String) (net : Net) (m : List (String × JValue))
    (h : (fetch_appfigures_data pat net).1 = Except.ok m) :
    ∃ prodPairs sales usage ratings,
      (make_request_bearer pat net "/products/mine" [("store", "apple")]).1
        = Except.ok (JValue.obj prodPairs) ∧
      product_ids prodPairs ≠ "" ∧
      (make_request_bearer pat net "/reports/sales"
        [("group_by", "product"), ("products", product_ids prodPairs)]).1
        = Except.ok sales ∧
      (make_request_bearer pat net "/reports/usage"
        [("group_by", "product"), ("products", product_ids prodPairs),
         ("usage_type", "app_store_views,impressions"), ("storefront", "apple")]).1
        = Except.ok usage ∧
      (make_request_bearer pat net "/ratings" [("products", product_ids prodPairs)]).1
        = Except.ok ratings ∧
      m = combine prodPairs sales usage ratings ∧
      (fetch_appfigures_data pat net).2 =
        [⟨"/products/mine", [("store", "apple")]⟩,
         ⟨"/reports/sales", [("group_by", "product"), ("products", product_ids prodPairs)]⟩,
         ⟨"/reports/usage", [("group_by", "product"), ("products", product_ids prodPairs),
            ("usage_type", "app_store_views,impressions"), ("storefront", "apple")]⟩,
         ⟨"/ratings", [("products", product_ids prodPairs)]⟩] := by
  unfold fetch_appfigures_data at h
  split at h
  next e log1 heq1 => exact Except.noConfusion h
  next products log1 heq1 =>
    split at h
    next prodPairs =>
      split at h
      next hids => exact Except.noConfusion h
      next hids =>
        split at h
        next e log2 heq2 => exact Except.noConfusion h
        next sales log2 heq2 =>
          split at h
          next e log3 heq3 => exact Except.noConfusion h
          next usage log3 heq3 =>
            split at h
            next e log4 heq4 => exact Except.noConfusion h
            next ratings log4 heq4 =>
              have hm : m = combine prodPairs sales usage ratings := by
                have h' : Except.ok (combine prodPairs sales usage ratings)
                    = Except.ok m := h
                injection h' with h'
                exact h'.symm
              have h1 : (make_request_bearer pat net "/products/mine"
                  [("store", "apple")]).1 = Except.ok (JValue.obj prodPairs) := by
                rw [heq1]
              have hpat := mrb_ok_notPAT pat net _ _ _ h1
              have l1 : log1 = [⟨"/products/mine", [("store", "apple")]⟩] := by
                have := mrb_log pat net "/products/mine" [("store", "apple")] hpat
                rw [heq1] at this
                exact this
              have h2 : (make_request_bearer pat net "/reports/sales"
                  [("group_by", "product"), ("products", product_ids prodPairs)]).1
                  = Except.ok sales := by rw [heq2]
              have l2 : log2 = [⟨"/reports/sales",
                  [("group_by", "product"), ("products", product_ids prodPairs)]⟩] := by
                have := mrb_log pat net "/reports/sales"
                  [("group_by", "product"), ("products", product_ids prodPairs)] hpat
                rw [heq2] at this
                exact this
              have h3 : (make_request_bearer pat net "/reports/usage"
                  [("group_by", "product"), ("products", product_ids prodPairs),
                   ("usage_type", "app_store_views,impressions"),
                   ("storefront", "apple")]).1 = Except.ok usage := by rw [heq3]
              have l3 : log3 = [⟨"/reports/usage",
                  [("group_by", "product"), ("products", product_ids prodPairs),
                   ("usage_type", "app_store_views,impressions"),
                   ("storefront", "apple")]⟩] := by
                have := mrb_log pat net "/reports/usage"
                  [("group_by", "product"), ("products", product_ids prodPairs),
                   ("usage_type", "app_store_views,impressions"),
                   ("storefront", "apple")] hpat
                rw [heq3] at this
                exact this
              have h4 : (make_request_bearer pat net "/ratings"
                  [("products", product_ids prodPairs)]).1 = Except.ok ratings := by
                rw [heq4]
              have l4 : log4 = [⟨"/ratings", [("products", product_ids prodPairs)]⟩] := by
                have := mrb_log pat net "/ratings"
                  [("products", product_ids prodPairs)] hpat
                rw [heq4] at this
                exact this
              refine ⟨prodPairs, sales, usage, ratings, h1, hids, h2, h3, h4, hm, ?_⟩
              unfold fetch_appfigures_data
              rw [heq1]
              simp only [if_neg hids]
              rw [heq2, heq3, heq4, l1, l2, l3, l4]
              rfl
    next hobj => exact Except.noConfusion h

/-! The claims. -/

/-- C1: whenever the products call returns the dict `prodPairs` and
`fetch_appfigures_data` returns a mapping `m`, the keys of `m` are exactly the
product IDs of `prodPairs`: same membership (so no ID present only in a
sales/usage/ratings bucket is ever added), and — the keys of a Python dict
being distinct — each ID appears exactly once. -/
theorem c1_keys_exactly_product_ids (pat : Option String) (net : Net)
    (prodPairs m : List (String × JValue))
    (hp : (make_request_bearer pat net "/products/mine" [("store", "apple")]).1
      = Except.ok (JValue.obj prodPairs))
    (hm : (fetch_appfigures_data pat net).1 = Except.ok m) :
    (∀ k, k ∈ m.map Prod.fst ↔ k ∈ prodPairs.map Prod.fst) ∧
    ((prodPairs.map Prod.fst).Nodup →
      ∀ k ∈ prodPairs.map Prod.fst, (m.map Prod.fst).count k = 1) := by
  obtain ⟨pp, s, u, r, h1, hne, h2, h3, h4, hm', hlog⟩ := fetch_ok_shape pat net m hm
  rw [hp] at h1
  injection h1 with h1
  injection h1 with h1
  subst h1
  subst hm'
  refine ⟨fun k => by rw [combine_keys], fun hnd k hk => ?_⟩
  rw [combine_keys]
  exact List.count_eq_one_of_mem hnd hk

/-- C1 witness: the happy-path network run through the theorem. -/
theorem c1_witness :
    (make_request_bearer (some "token") netHappy "/products/mine" [("store", "apple")]).1
      = Except.ok (JValue.obj prodHappy) ∧
    (fetch_appfigures_data (some "token") netHappy).1 = Except.ok mHappy ∧
    ((∀ k, k ∈ mHappy.map Prod.fst ↔ k ∈ prodHappy.map Prod.fst) ∧
     ((prodHappy.map Prod.fst).Nodup →
       ∀ k ∈ prodHappy.map Prod.fst, (mHappy.map Prod.fst).count k = 1)) :=
  ⟨rfl, rfl, c1_keys_exactly_product_ids (some "token") netHappy prodHappy mHappy rfl rfl⟩

/-- C9: the keys of the mapping returned by `fetch_appfigures_data` appear in
the same order as the product IDs appear in the products response. -/
theorem c9_key_order (pat : Option String) (net : Net)
    (prodPairs m : List (String × JValue))
    (hp : (make_request_bearer pat net "/products/mine" [("store", "apple")]).1
      = Except.ok (JValue.obj prodPairs))
    (hm : (fetch_appfigures_data pat net).1 = Except.ok m) :
    m.map Prod.fst = prodPairs.map Prod.fst := by
  obtain ⟨pp, s, u, r, h1, hne, h2, h3, h4, hm', hlog⟩ := fetch_ok_shape pat net m hm
  rw [hp] at h1
  injection h1 with h1
  injection h1 with h1
  subst h1
  subst hm'
  exact combine_keys _ s u r

/-- C9 witness: on the happy-path network the key order is `111`, `222`. -/
theorem c9_witness :
    (make_request_bearer (some "token") netHappy "/products/mine" [("store", "apple")]).1
      = Except.ok (JValue.obj prodHappy) ∧
    (fetch_appfigures_data (some "token") netHappy).1 = Except.ok mHappy ∧
    mHappy.map Prod.fst = prodHappy.map Prod.fst :=
  ⟨rfl, rfl, c9_key_order (some "token") netHappy prodHappy mHappy rfl rfl⟩

/-- C2: for every product ID of the products dict, the Combined Record in the
returned mapping is exactly `{product, sales, usage, ratings}` with `product`
the ID's entry in the products response, and each metrics field satisfying the
claim's clause (`FieldSpec`): the bucket's entry when the bucket is a mapping
containing the ID, the empty mapping when the ID is absent or the bucket is not
a mapping — so the field is present, never missing. -/
theorem c2_combined_record_fields (pat : Option String) (net : Net)
    (prodPairs m : List (String × JValue))
    (hp : (make_request_bearer pat net "/products/mine" [("store", "apple")]).1
      = Except.ok (JValue.obj prodPairs))
    (hm : (fetch_appfigures_data pat net).1 = Except.ok m) :
    ∃ sales usage ratings,
      (make_request_bearer pat net "/reports/sales"
        [("group_by", "product"), ("products", product_ids prodPairs)]).1
        = Except.ok sales ∧
      (make_request_bearer pat net "/reports/usage"
        [("group_by", "product"), ("products", product_ids prodPairs),
         ("usage_type", "app_store_views,impressions"), ("storefront", "apple")]).1
        = Except.ok usage ∧
      (make_request_bearer pat net "/ratings" [("products", product_ids prodPairs)]).1
        = Except.ok ratings ∧
      ∀ pid pval, alookup pid prodPairs = some pval →
        alookup pid m = some (JValue.obj
          [("product", pval),
           ("sales", bucketGet sales pid),
           ("usage", bucketGet usage pid),
           ("ratings", bucketGet ratings pid)]) ∧
        FieldSpec sales pid (bucketGet sales pid) ∧
        FieldSpec usage pid (bucketGet usage pid) ∧
        FieldSpec ratings pid (bucketGet ratings pid) := by
  obtain ⟨pp, s, u, r, h1, hne, h2, h3, h4, hm', hlog⟩ := fetch_ok_shape pat net m hm
  rw [hp] at h1
  injection h1 with h1
  injection h1 with h1
  subst h1
  subst hm'
  refine ⟨s, u, r, h2, h3, h4, fun pid pval hpv => ?_⟩
  refine ⟨?_, bucketGet_fieldSpec s pid, bucketGet_fieldSpec u pid, bucketGet_fieldSpec r pid⟩
  rw [alookup_combine, hpv]
  rfl

/-- C2 witness: the happy-path network run through the theorem. -/
theorem c2_witness :
    (make_request_bearer (some "token") netHappy "/products/mine" [("store", "apple")]).1
      = Except.ok (JValue.obj prodHappy) ∧
    (fetch_appfigures_data (some "token") netHappy).1 = Except.ok mHappy ∧
    (∃ sales usage ratings,
      (make_request_bearer (some "token") netHappy "/reports/sales"
        [("group_by", "product"), ("products", product_ids prodHappy)]).1
        = Except.ok sales ∧
      (make_request_bearer (some "token") netHappy "/reports/usage"
        [("group_by", "product"), ("products", product_ids prodHappy),
         ("usage_type", "app_store_views,impressions"), ("storefront", "apple")]).1
        = Except.ok usage ∧
      (make_request_bearer (some "token") netHappy "/ratings"
        [("products", product_ids prodHappy)]).1 = Except.ok ratings ∧
      ∀ pid pval, alookup pid prodHappy = some pval →
        alookup pid mHappy = some (JValue.obj
          [("product", pval),
           ("sales", bucketGet sales pid),
           ("usage", bucketGet usage pid),
           ("ratings", bucketGet ratings pid)]) ∧
        FieldSpec sales pid (bucketGet sales pid) ∧
        FieldSpec usage pid (bucketGet usage pid) ∧
        FieldSpec ratings pid (bucketGet ratings pid)) :=
  ⟨rfl, rfl, c2_combined_record_fields (some "token") netHappy prodHappy mHappy rfl rfl⟩

/-- C3: if the products call returns an empty mapping, `fetch_appfigures_data`
raises "No products found." and the request log stops at the products request:
the sales, usage and ratings calls are never made. -/
theorem c3_empty_products_short_circuit (pat : Option String) (net : Net)
    (hp : (make_request_bearer pat net "/products/mine" [("store", "apple")]).1
      = Except.ok (JValue.obj [])) :
    fetch_appfigures_data pat net =
      (Except.error "No products found.",
       [⟨"/products/mine", [("store", "apple")]⟩]) := by
  have hpair := mrb_ok_pair pat net "/products/mine" [("store", "apple")] (JValue.obj []) hp
  unfold fetch_appfigures_data
  rw [hpair]
  rfl

/-- C3 witness: a network whose products response is the empty mapping. -/
theorem c3_witness :
    (make_request_bearer (some "token") netEmptyProducts "/products/mine"
      [("store", "apple")]).1 = Except.ok (JValue.obj []) ∧
    fetch_appfigures_data (some "token") netEmptyProducts =
      (Except.error "No products found.",
       [⟨"/products/mine", [("store", "apple")]⟩]) :=
  ⟨rfl, c3_empty_products_short_circuit (some "token") netEmptyProducts rfl⟩

/-- C10: a non-empty products mapping whose only key is the empty string also
triggers "No products found." with no further upstream call, because the check
tests the comma-joined ID string, not the mapping itself. -/
theorem c10_empty_string_key (pat : Option String) (net : Net) (v : JValue)
    (hp : (make_request_bearer pat net "/products/mine" [("store", "apple")]).1
      = Except.ok (JValue.obj [("", v)])) :
    fetch_appfigures_data pat net =
      (Except.error "No products found.",
       [⟨"/products/mine", [("store", "apple")]⟩]) := by
  have hpair := mrb_ok_pair pat net "/products/mine" [("store", "apple")]
    (JValue.obj [("", v)]) hp
  unfold fetch_appfigures_data
  rw [hpair]
  rfl

/-- C10 witness: a products response whose single key is the empty string. -/
theorem c10_witness :
    (make_request_bearer (some "token") netEmptyKey "/products/mine"
      [("store", "apple")]).1 = Except.ok (JValue.obj [("", JValue.null)]) ∧
    fetch_appfigures_data (some "token") netEmptyKey =
      (Except.error "No products found.",
       [⟨"/products/mine", [("store", "apple")]⟩]) :=
  ⟨rfl, c10_empty_string_key (some "token") netEmptyKey JValue.null rfl⟩

/-- C6: if `fetch_appfigures_data` returns a mapping, every upstream call it
made succeeded — equivalently, if any of the four calls fails, the aggregation
fails and no (partial) mapping is ever returned. -/
theorem c6_no_partial_result (pat : Option String) (net : Net)
    (m : List (String × JValue))
    (hm : (fetch_appfigures_data pat net).1 = Except.ok m) :
    ∀ req ∈ (fetch_appfigures_data pat net).2,
      ∃ v, (make_request_bearer pat net req.endpoint req.params).1 = Except.ok v := by
  obtain ⟨pp, s, u, r, h1, hne, h2, h3, h4, hm', hlog⟩ := fetch_ok_shape pat net m hm
  intro req hreq
  rw [hlog] at hreq
  simp only [List.mem_cons, List.not_mem_nil, or_false] at hreq
  rcases hreq with h | h | h | h
  · subst h; exact ⟨JValue.obj pp, h1⟩
  · subst h; exact ⟨s, h2⟩
  · subst h; exact ⟨u, h3⟩
  · subst h; exact ⟨r, h4⟩

/-- C6 witness: on the happy-path network every logged request succeeded. -/
theorem c6_witness :
    (fetch_appfigures_data (some "token") netHappy).1 = Except.ok mHappy ∧
    ∀ req ∈ (fetch_appfigures_data (some "token") netHappy).2,
      ∃ v, (make_request_bearer (some "token") netHappy req.endpoint req.params).1
        = Except.ok v :=
  ⟨rfl, c6_no_partial_result (some "token") netHappy mHappy rfl⟩

/-- C8: a successful aggregation issues exactly four upstream calls, in the
fixed order products, sales, usage, ratings, with the endpoints and parameters
of the source, the `products` filter being the comma-joined product-ID list. -/
theorem c8_four_calls_fixed_order (pat : Option String) (net : Net)
    (prodPairs m : List (String × JValue))
    (hp : (make_request_bearer pat net "/products/mine" [("store", "apple")]).1
      = Except.ok (JValue.obj prodPairs))
    (hm : (fetch_appfigures_data pat net).1 = Except.ok m) :
    (fetch_appfigures_data pat net).2 =
      [⟨"/products/mine", [("store", "apple")]⟩,
       ⟨"/reports/sales", [("group_by", "product"),
          ("products", product_ids prodPairs)]⟩,
       ⟨"/reports/usage", [("group_by", "product"),
          ("products", product_ids prodPairs),
          ("usage_type", "app_store_views,impressions"), ("storefront", "apple")]⟩,
       ⟨"/ratings", [("products", product_ids prodPairs)]⟩] ∧
    product_ids prodPairs = String.intercalate "," (prodPairs.map Prod.fst) := by
  obtain ⟨pp, s, u, r, h1, hne, h2, h3, h4, hm', hlog⟩ := fetch_ok_shape pat net m hm
  rw [hp] at h1
  injection h1 with h1
  injection h1 with h1
  subst h1
  exact ⟨hlog, rfl⟩

/-- C8 witness: on the happy-path network the log is the four fixed requests
with the ID list `111,222`. -/
theorem c8_witness :
    (make_request_bearer (some "token") netHappy "/products/mine"
      [("store", "apple")]).1 = Except.ok (JValue.obj prodHappy) ∧
    (fetch_appfigures_data (some "token") netHappy).1 = Except.ok mHappy ∧
    ((fetch_appfigures_data (some "token") netHappy).2 =
      [⟨"/products/mine", [("store", "apple")]⟩,
       ⟨"/reports/sales", [("group_by", "product"), ("products", "111,222")]⟩,
       ⟨"/reports/usage", [("group_by", "product"), ("products", "111,222"),
          ("usage_type", "app_store_views,impressions"), ("storefront", "apple")]⟩,
       ⟨"/ratings", [("products", "111,222")]⟩] ∧
     product_ids prodHappy = String.intercalate "," (prodHappy.map Prod.fst)) :=
  ⟨rfl, rfl,
   c8_four_calls_fixed_order (some "token") netHappy prodHappy mHappy rfl rfl⟩

/-- C7: when the authentication token is not configured, `make_request_bearer`
— and hence `fetch_appfigures_data`, whose first step is such a call — raises
the configuration error with an empty request log: no network request is ever
attempted. -/
theorem c7_missing_token_no_request (pat : Option String) (net : Net)
    (endpoint : String) (params : List (String × String)) (h : pat = none) :
    make_request_bearer pat net endpoint params =
      (Except.error "APPFIGURES_PAT environment variable not set", []) ∧
    fetch_appfigures_data pat net =
      (Except.error "APPFIGURES_PAT environment variable not set", []) := by
  subst h
  refine ⟨mrb_missing_pat none net endpoint params rfl, ?_⟩
  unfold fetch_appfigures_data
  rw [mrb_missing_pat none net "/products/mine" [("store", "apple")] rfl]

/-- C7 witness: an unset token short-circuits both functions with no request,
even over a dead network. -/
theorem c7_witness :
    make_request_bearer none netDead "/products/mine" [("store", "apple")] =
      (Except.error "APPFIGURES_PAT environment variable not set", []) ∧
    fetch_appfigures_data none netDead =
      (Except.error "APPFIGURES_PAT environment variable not set", []) :=
  c7_missing_token_no_request none netDead "/products/mine" [("store", "apple")] rfl

/-- C4 counterexample: a 404 whose body parses to a JSON object *without* a
`message` field.  The claim predicts the raw body text in the message; the code
passes `''` as the default of `.get('message', '')`, so the raised message is
"API Error: 404 - " and does not embed the body text. -/
theorem c4_counterexample :
    resp404.jsonBody = some (JValue.obj [("foo", JValue.num 1)]) ∧
    alookup "message" [("foo", JValue.num 1)] = none ∧
    (make_request_bearer (some "token") net404 "/reports/sales" []).1
      = Except.error "API Error: 404 - " ∧
    ∀ l1 l2 : List Char,
      "API Error: 404 - ".toList ≠ l1 ++ resp404.text.toList ++ l2 := by
  refine ⟨rfl, rfl, rfl, fun l1 l2 h => ?_⟩
  have hmem : Char.ofNat 123 ∈ "API Error: 404 - ".toList := by
    rw [h]
    simp [resp404]
  exact absurd hmem (by decide)

/-- C4 (amended): for every status in 400–599 (the statuses `response.ok`
rejects), the raised message embeds the numeric status code and: when the body
parses as a mapping, the `str()` of its `message` field's value — the empty
string when the field is absent; otherwise (body parses as a non-mapping, on
which `.get` raises, or fails to parse) the raw response body text. -/
theorem c4_amended_error_message (pat : Option String) (net : Net)
    (endpoint : String) (params : List (String × String)) (resp : HttpResponse)
    (hpat : notPAT pat = false)
    (hnet : net ⟨endpoint, params⟩ = Except.ok resp)
    (hstatus : 400 ≤ resp.status ∧ resp.status < 600) :
    (make_request_bearer pat net endpoint params).1 =
      Except.error ("API Error: " ++ toString resp.status ++ " - " ++
        match resp.jsonBody with
        | some (JValue.obj details) =>
            pyStr ((alookup "message" details).getD (JValue.str ""))
        | some _ => resp.text
        | none => resp.text) := by
  obtain ⟨st, tx, jb⟩ := resp
  have hok : responseOk st = false := by
    unfold responseOk
    rw [if_pos hstatus]
  unfold make_request_bearer
  simp only [hpat, Bool.false_eq_true, if_false]
  rw [hnet]
  simp only [hok, Bool.false_eq_true, if_false]
  cases jb with
  | none => rfl
  | some v => cases v <;> rfl

/-- C4 amended witness: the 404-with-object-body network run through the
amended theorem. -/
theorem c4_amended_witness :
    notPAT (some "token") = false ∧
    net404 ⟨"/reports/sales", []⟩ = Except.ok resp404 ∧
    (400 ≤ resp404.status ∧ resp404.status < 600) ∧
    (make_request_bearer (some "token") net404 "/reports/sales" []).1 =
      Except.error ("API Error: " ++ toString resp404.status ++ " - " ++
        match resp404.jsonBody with
        | some (JValue.obj details) =>
            pyStr ((alookup "message" details).getD (JValue.str ""))
        | some _ => resp404.text
        | none => resp404.text) :=
  ⟨rfl, rfl, by decide,
   c4_amended_error_message (some "token") net404 "/reports/sales" [] resp404
     rfl rfl (by decide)⟩

/-- C5 counterexample: a 304 Not Modified — not a 2xx status — for which
`make_request_bearer` returns the parsed body instead of raising, because
`response.ok` accepts every status below 400, not just the 2xx class. -/
theorem c5_counterexample :
    (make_request_bearer (some "token") net304 "/products/mine" []).1
      = Except.ok (JValue.obj [("a", JValue.num 2)]) ∧
    ¬(200 ≤ 304 ∧ 304 < 300) :=
  ⟨rfl, by decide⟩

/-- C5 (amended): given a transport-level success, `make_request_bearer`
returns the parsed response body as-is exactly when `response.ok` holds — the
status is outside 400–599, so 3xx counts as success — and the body parses;
any status in 400–599 (and an unparseable body on a success status) raises. -/
theorem c5_amended_success_iff (pat : Option String) (net : Net)
    (endpoint : String) (params : List (String × String))
    (resp : HttpResponse) (v : JValue)
    (hpat : notPAT pat = false)
    (hnet : net ⟨endpoint, params⟩ = Except.ok resp) :
    ((make_request_bearer pat net endpoint params).1 = Except.ok v ↔
      (responseOk resp.status = true ∧ resp.jsonBody = some v)) ∧
    (responseOk resp.status = true ↔ ¬(400 ≤ resp.status ∧ resp.status < 600)) := by
  obtain ⟨st, tx, jb⟩ := resp
  have hiff : responseOk st = true ↔ ¬(400 ≤ st ∧ st < 600) := by
    unfold responseOk
    by_cases hc : 400 ≤ st ∧ st < 600
    · simp [hc]
    · simp [hc]
  refine ⟨?_, hiff⟩
  unfold make_request_bearer
  simp only [hpat, Bool.false_eq_true, if_false]
  rw [hnet]
  cases hok : responseOk st with
  | true =>
    simp only [hok, if_true, true_and]
    cases jb with
    | some d =>
      constructor
      · intro h
        have h' : Except.ok d = Except.ok v := h
        injection h' with h'
        rw [h']
      · intro hd
        injection hd with hd
        rw [hd]
    | none =>
      constructor
      · intro h; exact Except.noConfusion h
      · intro hd; exact Option.noConfusion hd
  | false =>
    simp only [hok, Bool.false_eq_true, if_false, false_and, iff_false]
    intro h
    cases jb with
    | none => exact Except.noConfusion h
    | some d => cases d <;> exact Except.noConfusion h

/-- C5 amended witness: the 304 network run through the amended theorem. -/
theorem c5_amended_witness :
    notPAT (some "token") = false ∧
    net304 ⟨"/products/mine", []⟩ = Except.ok resp304 ∧
    (((make_request_bearer (some "token") net304 "/products/mine" []).1
        = Except.ok (JValue.obj [("a", JValue.num 2)]) ↔
      (responseOk resp304.status = true ∧
       resp304.jsonBody = some (JValue.obj [("a", JValue.num 2)]))) ∧
     (responseOk resp304.status = true ↔
      ¬(400 ≤ resp304.status ∧ resp304.status < 600))) :=
  ⟨rfl, rfl,
   c5_amended_success_iff (some "token") net304 "/products/mine" [] resp304
     (JValue.obj [("a", JValue.num 2)]) rfl rfl⟩
